import Mathlib

/-!
Shallow embedding of the polars backtesting engine (src/engine.py,
src/strategy.py, src/order.py, src/trade.py, src/utils.py,
src/performance.py).  Prices, sizes and cash are modelled as rationals;
the engine's per-bar loop becomes explicit state passing over an
`EngineState`, and fallible code returns `Except String`.
-/

/-- src/utils.py, `OrderSide`: buy or sell. -/
inductive OrderSide where
  | buy
  | sell
deriving DecidableEq, Repr

/-- src/utils.py, `OrderType`: market, limit, stop, stop_limit. -/
inductive OrderType where
  | market
  | limit
  | stop
  | stop_limit
deriving DecidableEq, Repr

/-- One row of the OHLCV data frame (`date, open, high, low, close, volume`).
Dates are modelled as natural numbers (the engine only uses them as unique,
increasing keys); `open` is a Lean keyword so the field is `open_`. -/
structure Bar where
  date : ℕ
  open_ : ℚ
  high : ℚ
  low : ℚ
  close : ℚ
  volume : ℚ
deriving DecidableEq, Repr

/-- src/order.py, `Order`: a requested trade.  `limit_price` is `None` in
Python for market orders, hence `Option ℚ`. -/
structure Order where
  ticker : String
  side : OrderSide
  size : ℚ
  type : OrderType
  limit_price : Option ℚ
  idx : ℕ
deriving DecidableEq, Repr

/-- src/trade.py, `Trade`: an executed fill. -/
structure Trade where
  ticker : String
  side : OrderSide
  size : ℚ
  type : OrderType
  price : ℚ
  idx : ℕ
deriving DecidableEq, Repr

/-- The engine/strategy shared mutable state: the cash balance, the
append-only trade history (`strategy.trades`) and the pending-order queue
(`strategy.orders`). -/
structure EngineState where
  cash : ℚ
  trades : List Trade
  orders : List Order
deriving DecidableEq, Repr

/-- src/strategy.py, `Strategy.position_size`: sum of the signed sizes of
all trades. -/
def positionSize (trades : List Trade) : ℚ :=
  (trades.map (fun t => t.size)).sum

/-- src/strategy.py, `Strategy.buy`: enqueues a MARKET BUY order with
positive size and no limit price. -/
def Strategy.buy (ticker : String) (size : ℚ) (idx : ℕ) : Order :=
  { ticker := ticker, side := OrderSide.buy, size := size,
    type := OrderType.market, limit_price := none, idx := idx }

/-- src/strategy.py, `Strategy.sell`: enqueues a MARKET SELL order whose
stored size is the NEGATED magnitude (`size=-size`). -/
def Strategy.sell (ticker : String) (size : ℚ) (idx : ℕ) : Order :=
  { ticker := ticker, side := OrderSide.sell, size := -size,
    type := OrderType.market, limit_price := none, idx := idx }

/-- src/strategy.py, `Strategy.buy_limit`: LIMIT BUY with positive size. -/
def Strategy.buy_limit (ticker : String) (limit_price : ℚ) (size : ℚ)
    (idx : ℕ) : Order :=
  { ticker := ticker, side := OrderSide.buy, size := size,
    type := OrderType.limit, limit_price := some limit_price, idx := idx }

/-- src/strategy.py, `Strategy.sell_limit`: LIMIT SELL with negated size. -/
def Strategy.sell_limit (ticker : String) (limit_price : ℚ) (size : ℚ)
    (idx : ℕ) : Order :=
  { ticker := ticker, side := OrderSide.sell, size := -size,
    type := OrderType.limit, limit_price := some limit_price, idx := idx }

/-- The fill action shared by all fill branches of
`Engine._fill_orders` (src/engine.py lines 171-183): build a `Trade`
carrying the order's ticker, side, signed size and kind, at the resolved
`price` and the current bar's key, append it to the trade history and
update cash by `cash -= price * size`. -/
def applyFill (s : EngineState) (o : Order) (price : ℚ) (idx : ℕ) :
    EngineState :=
  { s with
    cash := s.cash - price * o.size,
    trades := s.trades ++
      [{ ticker := o.ticker, side := o.side, size := o.size,
         type := o.type, price := price, idx := idx }] }

/-- One iteration of the order loop of `Engine._fill_orders`
(src/engine.py lines 97-183), for the current `bar`.

The data-frame lookups `data.filter(date == current_idx)["open"|"low"|"high"]`
become the corresponding fields of `bar` (the input contract guarantees
unique dates).  Faithful points:
  * a BUY is considered when `cash >= order.size * bar.open` (the open
    price, even for limit orders that then fill at the limit price);
  * a SELL is considered when `position_size >= order.size`, comparing
    against the SIGNED size (negative for orders built by
    `Strategy.sell`/`Strategy.sell_limit`);
  * a LIMIT buy fills iff `limit_price >= bar.low`, a LIMIT sell fills iff
    `limit_price <= bar.high`, both at the limit price; comparing a `None`
    limit price would raise a TypeError in Python, modelled as `.error`;
  * every non-LIMIT kind (MARKET, STOP, STOP_LIMIT) falls into the `else`
    branch and fills unconditionally at `bar.open`. -/
def fillOrder (bar : Bar) (s : EngineState) (o : Order) :
    Except String EngineState :=
  match o.side with
  | OrderSide.buy =>
    if s.cash ≥ o.size * bar.open_ then
      match o.type with
      | OrderType.limit =>
        match o.limit_price with
        | none => Except.error "TypeError: NoneType >= float"
        | some lp =>
          if lp ≥ bar.low then Except.ok (applyFill s o lp bar.date)
          else Except.ok s
      | _ => Except.ok (applyFill s o bar.open_ bar.date)
    else Except.ok s
  | OrderSide.sell =>
    if positionSize s.trades ≥ o.size then
      match o.type with
      | OrderType.limit =>
        match o.limit_price with
        | none => Except.error "TypeError: NoneType <= float"
        | some lp =>
          if lp ≤ bar.high then Except.ok (applyFill s o lp bar.date)
          else Except.ok s
      | _ => Except.ok (applyFill s o bar.open_ bar.date)
    else Except.ok s

/-- The order loop of `Engine._fill_orders`, threading cash and the trade
history through consecutive orders of the same batch. -/
def fillOrdersAux (bar : Bar) : EngineState → List Order →
    Except String EngineState
  | s, [] => Except.ok s
  | s, o :: rest =>
    match fillOrder bar s o with
    | Except.error e => Except.error e
    | Except.ok s' => fillOrdersAux bar s' rest

/-- src/engine.py, `Engine._fill_orders`: process every pending order
against the current bar, then clear the pending-order queue
unconditionally (`self.strategy.orders = []`, lines 185-189). -/
def fillOrders (bar : Bar) (s : EngineState) : Except String EngineState :=
  match fillOrdersAux bar s s.orders with
  | Except.error e => Except.error e
  | Except.ok s' => Except.ok { s' with orders := [] }

/-- A strategy's `on_bar` hook: given the current bar key and the
engine/strategy state visible to it (cash, trades, pending orders), it
returns the orders it appends to `self.orders` during this invocation. -/
def StrategyFn : Type := ℕ → EngineState → List Order

/-- The body of the bar loop of `Engine.run` (src/engine.py lines 68-78),
instrumented: besides the final state it returns, per bar, the
pending-order queue as observed at the moment `on_bar` is invoked
(i.e. right after `_fill_orders` returns). -/
def runBarsT (strat : StrategyFn) :
    List Bar → EngineState → Except String (EngineState × List (List Order))
  | [], s => Except.ok (s, [])
  | b :: bs, s =>
    match fillOrders b s with
    | Except.error e => Except.error e
    | Except.ok s1 =>
      match runBarsT strat bs
        { s1 with orders := s1.orders ++ strat b.date s1 } with
      | Except.error e => Except.error e
      | Except.ok (sf, qs) => Except.ok (sf, s1.orders :: qs)

/-- The initial engine/strategy state: `initial_cash`, no trades, empty
order queue. -/
def initState (initial_cash : ℚ) : EngineState :=
  { cash := initial_cash, trades := [], orders := [] }

/-- src/engine.py, `Engine.run` (lines 58-78): raises if no strategy or no
data has been attached (before touching any bar), otherwise runs the bar
loop from the initial state. -/
def Engine.run (strat : Option StrategyFn) (data : Option (List Bar))
    (initial_cash : ℚ) : Except String (EngineState × List (List Order)) :=
  match strat with
  | none => Except.error "No strategy has been added to the engine."
  | some st =>
    match data with
    | none => Except.error "No data has been added to the engine."
    | some bars => runBarsT st bars (initState initial_cash)

/-- An IEEE-754-style extended value as produced by numpy float64
arithmetic in src/performance.py: a finite value (kept exact as a
rational), positive or negative infinity, or not-a-number. -/
inductive FP where
  | num : ℚ → FP
  | inf : FP
  | neginf : FP
  | nan : FP
deriving DecidableEq, Repr

/-- IEEE subtraction on the fragment of values the metrics code can
produce. -/
def FP.sub : FP → FP → FP
  | FP.nan, _ => FP.nan
  | _, FP.nan => FP.nan
  | FP.inf, FP.inf => FP.nan
  | FP.inf, _ => FP.inf
  | FP.neginf, FP.neginf => FP.nan
  | FP.neginf, _ => FP.neginf
  | FP.num _, FP.inf => FP.neginf
  | FP.num _, FP.neginf => FP.inf
  | FP.num a, FP.num b => FP.num (a - b)

/-- IEEE division as performed by numpy float64: dividing a nonzero finite
value by (positive) zero yields a signed infinity with a runtime WARNING
(no exception); zero by zero yields nan. -/
def FP.div : FP → FP → FP
  | FP.nan, _ => FP.nan
  | _, FP.nan => FP.nan
  | FP.inf, FP.inf => FP.nan
  | FP.inf, FP.neginf => FP.nan
  | FP.neginf, FP.inf => FP.nan
  | FP.neginf, FP.neginf => FP.nan
  | FP.inf, FP.num b => if b < 0 then FP.neginf else FP.inf
  | FP.neginf, FP.num b => if b < 0 then FP.inf else FP.neginf
  | FP.num _, FP.inf => FP.num 0
  | FP.num _, FP.neginf => FP.num 0
  | FP.num a, FP.num b =>
    if b = 0 then
      if a = 0 then FP.nan else if 0 < a then FP.inf else FP.neginf
    else FP.num (a / b)

/-- src/performance.py, `calculate_sharpe_ratio`:
`(annualized_return - risk_free_rate) / annualized_volatility` inside a
`try/except RuntimeError` that returns numpy nan.  The denominator is a
numpy float64 (`std() * np.sqrt(252)`), so a zero denominator does NOT
raise (numpy emits a RuntimeWarning and returns a signed infinity or nan)
and the except branch is dead code; the embedding is therefore the plain
IEEE division. -/
def calculate_sharpe_ratio (annualized_return annualized_volatility
    risk_free_rate : FP) : FP :=
  FP.div (FP.sub annualized_return risk_free_rate) annualized_volatility

/-- The sample variance with one delta degree of freedom underlying
polars `Series.std()` (src/performance.py line 50): `none` when the
series has fewer than two elements, where polars returns null (`None`). -/
def seriesVar (xs : List ℚ) : Option ℚ :=
  if xs.length < 2 then none
  else
    some (((xs.map (fun x => (x - xs.sum / (xs.length : ℚ)) ^ 2)).sum) /
      ((xs.length : ℚ) - 1))

/-- The value returned by `calculate_sortino_ratio` on its success paths:
`val a b` stands for the real number `a / Real.sqrt b` with `0 < b`
(the annualized downside deviation squared is kept exact instead of its
irrational square root), and `nan` for numpy nan. -/
inductive SortinoValue where
  | val : ℚ → ℚ → SortinoValue
  | nan : SortinoValue
deriving DecidableEq, Repr

/-- src/performance.py, `calculate_sortino_ratio`:
filter the daily returns to the strictly negative ones, take their
`std()` (null when fewer than two negative returns remain, in which case
`None * np.sqrt(252)` raises a TypeError, modelled as `.error`), annualize
it by `sqrt(252)`, and return the excess return divided by it when it is
positive, numpy nan otherwise.  `val (r - rf) (252 * v)` represents
`(r - rf) / (sqrt(v) * sqrt(252))`; the `downside_volatility > 0` test is
equivalent to `0 < v` since the deviation is `sqrt(v) * sqrt(252)`. -/
def calculate_sortino_ratio (daily_returns : List ℚ)
    (annualized_return risk_free_rate : ℚ) : Except String SortinoValue :=
  match seriesVar (daily_returns.filter (fun x => x < 0)) with
  | none =>
    Except.error "TypeError: unsupported operand, NoneType * numpy.float64"
  | some v =>
    if 0 < v then
      Except.ok (SortinoValue.val (annualized_return - risk_free_rate)
        (252 * v))
    else Except.ok SortinoValue.nan

/-- The side's resource test of `Engine._fill_orders` as the code performs
it: for a BUY, `cash >= size * bar.open`; for a SELL,
`position_size >= size` with the SIGNED size. -/
def resourceOK (bar : Bar) (s : EngineState) (o : Order) : Bool :=
  match o.side with
  | OrderSide.buy => decide (s.cash ≥ o.size * bar.open_)
  | OrderSide.sell => decide (positionSize s.trades ≥ o.size)

/-- Two bars for the no-position sell run: opens 10 and 12. -/
def c1Bars : List Bar :=
  [{ date := 1, open_ := 10, high := 10, low := 10, close := 10, volume := 0 },
   { date := 2, open_ := 12, high := 12, low := 12, close := 12, volume := 0 }]

/-- A strategy that, holding nothing, places a market sell of 5 shares on
the first bar. -/
def c1Strategy : StrategyFn :=
  fun idx _ => if idx = 1 then [Strategy.sell "A" 5 idx] else []

/-- The trade the engine creates for that uncovered sell. -/
def c1Trade : Trade :=
  { ticker := "A", side := OrderSide.sell, size := -5,
    type := OrderType.market, price := 12, idx := 2 }

/-- Two bars for the overspending limit-buy run; the second bar has
open 10 and low 5. -/
def c2Bars : List Bar :=
  [{ date := 1, open_ := 10, high := 10, low := 9, close := 10, volume := 0 },
   { date := 2, open_ := 10, high := 20, low := 5, close := 10, volume := 0 }]

/-- A strategy that places a limit buy of 1 share at limit price 100 on
the first bar, with only 10 of cash available. -/
def c2Strategy : StrategyFn :=
  fun idx _ => if idx = 1 then [Strategy.buy_limit "A" 100 1 idx] else []

/-- The trade the engine creates for that limit buy: filled at the limit
price 100, far above the 10 of available cash. -/
def c2Trade : Trade :=
  { ticker := "A", side := OrderSide.buy, size := 1,
    type := OrderType.limit, price := 100, idx := 2 }

/-- A bar with open 10, high 20, low 5 for the limit-fill law. -/
def c3Bar : Bar :=
  { date := 2, open_ := 10, high := 20, low := 5, close := 10, volume := 0 }

/-- Ample cash, no trades, for the limit-fill law witness. -/
def c3State : EngineState := { cash := 1000, trades := [], orders := [] }

/-- A limit buy of 1 share at limit price 7 (above the bar low 5). -/
def c3Order : Order := Strategy.buy_limit "XYZ" 7 1 1

/-- A bar with open 10 for the STOP-order runs. -/
def c4Bar : Bar :=
  { date := 2, open_ := 10, high := 11, low := 9, close := 10, volume := 0 }

/-- 1000 of cash and no trades, so the BUY resource test passes. -/
def c4State : EngineState := { cash := 1000, trades := [], orders := [] }

/-- A pending STOP buy order of 1 share (constructed directly, since the
Strategy helpers only build MARKET and LIMIT orders). -/
def c4Order : Order :=
  { ticker := "A", side := OrderSide.buy, size := 1,
    type := OrderType.stop, limit_price := none, idx := 1 }

/-- The trade the engine creates for the STOP order, exactly as for a
market order: filled at the bar open. -/
def c4Trade : Trade :=
  { ticker := "A", side := OrderSide.buy, size := 1,
    type := OrderType.stop, price := 10, idx := 2 }

/-- Two bars for the queue-emptiness witness run. -/
def c5Bars : List Bar :=
  [{ date := 1, open_ := 10, high := 10, low := 10, close := 10, volume := 0 },
   { date := 2, open_ := 20, high := 20, low := 20, close := 20, volume := 0 }]

/-- A strategy that places a market buy of 1 share on every bar. -/
def c5Strategy : StrategyFn := fun idx _ => [Strategy.buy "A" 1 idx]

/-- The final state of the queue-emptiness witness run: the bar-1 order
filled on bar 2 at open 20, and the bar-2 order is still pending. -/
def c5Final : EngineState :=
  { cash := 80,
    trades := [{ ticker := "A", side := OrderSide.buy, size := 1,
                 type := OrderType.market, price := 20, idx := 2 }],
    orders := [{ ticker := "A", side := OrderSide.buy, size := 1,
                 type := OrderType.market, limit_price := none, idx := 2 }] }

/-- Scenario A: three bars with opens 10, 50, 60. -/
def scenarioABars : List Bar :=
  [{ date := 1, open_ := 10, high := 10, low := 10, close := 10, volume := 0 },
   { date := 2, open_ := 50, high := 50, low := 50, close := 50, volume := 0 },
   { date := 3, open_ := 60, high := 60, low := 60, close := 60, volume := 0 }]

/-- Scenario A's strategy: a market buy of 10 shares on bar 1. -/
def scenarioAStrategy : StrategyFn :=
  fun idx _ => if idx = 1 then [Strategy.buy "AAPL" 10 idx] else []

/-- Scenario A's single trade: 10 shares at the bar-2 open of 50. -/
def scenarioATrade : Trade :=
  { ticker := "AAPL", side := OrderSide.buy, size := 10,
    type := OrderType.market, price := 50, idx := 2 }

/-- A bar with open 4 for the whole-fill witness. -/
def c10Bar : Bar :=
  { date := 3, open_ := 4, high := 4, low := 4, close := 4, volume := 0 }

/-- 9 of cash, no history, for the whole-fill witness. -/
def c10State : EngineState := { cash := 9, trades := [], orders := [] }

/-- A market buy of 2 shares for the whole-fill witness. -/
def c10Order : Order := Strategy.buy "B" 2 3

/-- The state after the whole-fill witness order fills at open 4. -/
def c10Result : EngineState := applyFill c10State c10Order 4 3

/-- Case analysis of `fillOrder`: a successfully processed order either
leaves the state unchanged or appends one trade built by `applyFill`, at
the order's limit price for LIMIT orders and at the bar open otherwise. -/
theorem fillOrder_ok_cases (bar : Bar) (s : EngineState) (o : Order)
    (s' : EngineState) (h : fillOrder bar s o = Except.ok s') :
    s' = s ∨ ∃ price, s' = applyFill s o price bar.date ∧
      ((o.type = OrderType.limit ∧ o.limit_price = some price) ∨
       (o.type ≠ OrderType.limit ∧ price = bar.open_)) := by
  obtain ⟨tk, sd, sz, ty, lpo, i⟩ := o
  cases sd <;> cases ty <;> cases lpo <;>
    simp only [fillOrder] at h <;>
    (try split at h) <;>
    (try split at h) <;>
    first
      | (left; exact (Except.ok.inj h).symm)
      | (right; exact ⟨_, (Except.ok.inj h).symm, Or.inl ⟨rfl, rfl⟩⟩)
      | (right; exact ⟨_, (Except.ok.inj h).symm, Or.inr ⟨by simp, rfl⟩⟩)
      | cases h

/-- `Engine._fill_orders` always returns with an empty pending-order
queue: the final unconditional `self.strategy.orders = []`. -/
theorem fillOrders_clears_queue (bar : Bar) (s s' : EngineState)
    (h : fillOrders bar s = Except.ok s') : s'.orders = [] := by
  unfold fillOrders at h
  cases haux : fillOrdersAux bar s s.orders with
  | error e => rw [haux] at h; cases h
  | ok s2 => rw [haux] at h; cases h; rfl

/-- Along any successful run of the bar loop, every queue observed at a
strategy invocation is empty. -/
theorem runBarsT_queues_empty (strat : StrategyFn) :
    ∀ (bars : List Bar) (s sf : EngineState) (qs : List (List Order)),
      runBarsT strat bars s = Except.ok (sf, qs) → ∀ q ∈ qs, q = [] := by
  intro bars
  induction bars with
  | nil =>
    intro s sf qs h q hq
    simp only [runBarsT, Except.ok.injEq, Prod.mk.injEq] at h
    rw [← h.2] at hq
    simp at hq
  | cons b bs ih =>
    intro s sf qs h q hq
    unfold runBarsT at h
    cases h1 : fillOrders b s with
    | error e => simp only [h1] at h; cases h
    | ok s1 =>
      simp only [h1] at h
      cases h2 : runBarsT strat bs
          { s1 with orders := s1.orders ++ strat b.date s1 } with
      | error e => simp only [h2] at h; cases h
      | ok p =>
        obtain ⟨sf2, qs2⟩ := p
        simp only [h2, Except.ok.injEq, Prod.mk.injEq] at h
        rw [← h.2] at hq
        rcases List.mem_cons.mp hq with rfl | hq2
        · exact fillOrders_clears_queue b s s1 h1
        · exact ih _ _ _ h2 q hq2

/-- C1: the code does NOT require `position_size >= |size|` to fill a
sell.  `Engine._fill_orders` compares the position against the SIGNED
order size (negative for sells), so `0 >= -5` holds and a market sell of
5 shares placed with no position at all fills on the next bar at its
open, producing a Trade and crediting cash — where the spec requires the
order to be discarded.  This contradicts the method's own docstring
("If we are selling, we have to have enough shares to cover the
order."). -/
theorem sell_without_position_still_fills :
    Engine.run (some c1Strategy) (some c1Bars) 100 =
      Except.ok ({ cash := 160, trades := [c1Trade], orders := [] },
        [[], []]) ∧
    positionSize [] < |(-5 : ℚ)| := by
  constructor
  · norm_num [Engine.run, runBarsT, initState, fillOrders, fillOrdersAux,
      fillOrder, applyFill, positionSize, c1Strategy, c1Bars, c1Trade,
      Strategy.sell]
  · norm_num [positionSize]

/-- C2: an executed limit buy CAN spend more than the cash held
immediately before the fill.  The fillability test compares cash with
`size * bar.open`, but the fill then happens at the limit price; with
cash 10, bar open 10 and a limit buy of 1 share at limit price 100
(above the bar low 5), the order fills at 100 and cash drops to -90,
though `fill_price * size = 100 > 10`.  The code's own TODO comment
acknowledges the defect. -/
theorem limit_buy_fill_exceeds_cash :
    Engine.run (some c2Strategy) (some c2Bars) 10 =
      Except.ok ({ cash := -90, trades := [c2Trade], orders := [] },
        [[], []]) ∧
    ¬ ((100 : ℚ) * 1 ≤ 10) := by
  constructor
  · norm_num [Engine.run, runBarsT, initState, fillOrders, fillOrdersAux,
      fillOrder, applyFill, positionSize, c2Strategy, c2Bars, c2Trade,
      Strategy.buy_limit]
  · norm_num

/-- C3: for a pending limit order whose side's resource precondition
holds (cash at least `size * bar.open` for a buy; position at least
`|size|` for a sell), a limit buy fills iff `bar.low <= limit_price`, a
limit sell fills iff `limit_price <= bar.high`, and the produced Trade's
fill price is exactly the limit price (the trade appended by `applyFill`
carries `price = lp`). -/
theorem limit_order_fill_characterization (bar : Bar) (s : EngineState)
    (o : Order) (lp : ℚ) (ht : o.type = OrderType.limit)
    (hlp : o.limit_price = some lp)
    (hbuy : o.side = OrderSide.buy → s.cash ≥ o.size * bar.open_)
    (hsell : o.side = OrderSide.sell → positionSize s.trades ≥ |o.size|) :
    fillOrder bar s o =
      Except.ok
        (if (o.side = OrderSide.buy ∧ bar.low ≤ lp) ∨
            (o.side = OrderSide.sell ∧ lp ≤ bar.high)
         then applyFill s o lp bar.date else s) := by
  cases hs : o.side with
  | buy =>
    have hc : s.cash ≥ o.size * bar.open_ := hbuy hs
    by_cases hfill : bar.low ≤ lp
    · simp [fillOrder, hs, ht, hlp, hc, hfill, ge_iff_le]
    · simp [fillOrder, hs, ht, hlp, hc, hfill, ge_iff_le]
  | sell =>
    have hpos : positionSize s.trades ≥ o.size :=
      le_trans (le_abs_self o.size) (hsell hs)
    by_cases hfill : lp ≤ bar.high
    · simp [fillOrder, hs, ht, hlp, hpos, hfill]
    · simp [fillOrder, hs, ht, hlp, hpos, hfill]

/-- C3 witness: the limit-fill law applied to a concrete limit buy of 1
share at limit price 7 against a bar with open 10 and low 5, with cash
1000. -/
theorem limit_order_fill_characterization_witness :
    fillOrder c3Bar c3State c3Order =
      Except.ok
        (if (c3Order.side = OrderSide.buy ∧ c3Bar.low ≤ 7) ∨
            (c3Order.side = OrderSide.sell ∧ (7 : ℚ) ≤ c3Bar.high)
         then applyFill c3State c3Order 7 c3Bar.date else c3State) :=
  limit_order_fill_characterization c3Bar c3State c3Order 7 rfl rfl
    (fun _ => by norm_num [c3State, c3Order, c3Bar, Strategy.buy_limit])
    (by simp [c3Order, Strategy.buy_limit])

/-- C4 counterexample: a pending STOP buy order with sufficient cash DOES
produce a Trade and change cash: the fill loop's `else` branch treats
every non-LIMIT kind like a market order, so the STOP order fills at the
bar open 10, moves cash from 1000 to 990 and appends a Trade of kind
STOP. -/
theorem stop_order_produces_trade :
    fillOrder c4Bar c4State c4Order =
      Except.ok { cash := 990, trades := [c4Trade], orders := [] } ∧
    c4Order.type = OrderType.stop ∧ [c4Trade] ≠ [] := by
  refine ⟨?_, rfl, by simp⟩
  norm_num [fillOrder, applyFill, positionSize, c4Bar, c4State, c4Order,
    c4Trade]

/-- C4 (amended): orders of kind STOP or STOP_LIMIT reaching the fill
step are matched exactly like MARKET orders: whenever the side's
resource test passes they fill unconditionally at the bar open
(producing a Trade and changing cash), and otherwise they are discarded;
the engine defines no stop-specific matching rule, and the Strategy
helper methods never construct such orders. -/
theorem stop_orders_fill_as_market (bar : Bar) (s : EngineState)
    (o : Order)
    (h : o.type = OrderType.stop ∨ o.type = OrderType.stop_limit) :
    fillOrder bar s o =
      Except.ok (if resourceOK bar s o
                 then applyFill s o bar.open_ bar.date else s) := by
  cases hs : o.side with
  | buy =>
    by_cases hc : s.cash ≥ o.size * bar.open_ <;>
      rcases h with h | h <;>
        simp [fillOrder, resourceOK, hs, h, hc]
  | sell =>
    by_cases hc : positionSize s.trades ≥ o.size <;>
      rcases h with h | h <;>
        simp [fillOrder, resourceOK, hs, h, hc]

/-- C4 witness: the amended stop-order rule applied to the concrete STOP
buy order of 1 share with cash 1000 against a bar with open 10. -/
theorem stop_orders_fill_as_market_witness :
    fillOrder c4Bar c4State c4Order =
      Except.ok (if resourceOK c4Bar c4State c4Order
                 then applyFill c4State c4Order c4Bar.open_ c4Bar.date
                 else c4State) :=
  stop_orders_fill_as_market c4Bar c4State c4Order (Or.inl rfl)

/-- C5: in every successful run started from the initial engine state,
the pending-order queue observed at each bar's strategy invocation is
empty (orders placed during bar t are filled or discarded - and the
queue cleared - during bar t+1's fill step); moreover the fill step on an
empty queue is a no-op, so in particular the very first bar fills
nothing. -/
theorem order_queue_empty_at_each_strategy_call (strat : StrategyFn)
    (bars : List Bar) (initial_cash : ℚ) (sf : EngineState)
    (qs : List (List Order))
    (h : runBarsT strat bars (initState initial_cash) =
      Except.ok (sf, qs)) :
    (∀ q ∈ qs, q = []) ∧
    (∀ (b : Bar) (s : EngineState), s.orders = [] →
      fillOrders b s = Except.ok s) := by
  refine ⟨runBarsT_queues_empty strat bars _ sf qs h, ?_⟩
  intro b s hs
  obtain ⟨c, t, ords⟩ := s
  have hnil : ords = [] := hs
  subst hnil
  rfl

/-- C5 witness: the queue-emptiness law applied to a concrete 2-bar run
of a strategy that buys 1 share on every bar. -/
theorem order_queue_empty_witness :
    (∀ q ∈ ([[], []] : List (List Order)), q = []) ∧
    (∀ (b : Bar) (s : EngineState), s.orders = [] →
      fillOrders b s = Except.ok s) :=
  order_queue_empty_at_each_strategy_call c5Strategy c5Bars 100 c5Final
    [[], []]
    (by norm_num [runBarsT, initState, fillOrders, fillOrdersAux,
      fillOrder, applyFill, positionSize, c5Strategy, c5Bars, c5Final,
      Strategy.buy])

/-- C6 counterexample: with zero annualized volatility and annualized
return 1 (risk-free rate 0), the Sharpe computation returns POSITIVE
INFINITY, not not-a-number: numpy float64 division of a nonzero value by
zero warns and yields a signed infinity, and the `except RuntimeError`
guard never fires. -/
theorem sharpe_zero_volatility_infinite :
    calculate_sharpe_ratio (FP.num 1) (FP.num 0) (FP.num 0) = FP.inf ∧
    FP.inf ≠ FP.nan := by
  constructor
  · norm_num [calculate_sharpe_ratio, FP.sub, FP.div]
  · simp

/-- C6 (amended): when the annualized volatility is zero the Sharpe
computation never raises; it returns not-a-number exactly when the
annualized return equals the risk-free rate, and a correspondingly
signed infinity otherwise. -/
theorem sharpe_zero_volatility_signed (a r : ℚ) :
    calculate_sharpe_ratio (FP.num a) (FP.num 0) (FP.num r) =
      if r < a then FP.inf else if a < r then FP.neginf else FP.nan := by
  have ht : calculate_sharpe_ratio (FP.num a) (FP.num 0) (FP.num r) =
      (if a - r = 0 then FP.nan
       else if 0 < a - r then FP.inf else FP.neginf) := by
    simp [calculate_sharpe_ratio, FP.sub, FP.div]
  rw [ht]
  rcases lt_trichotomy r a with h | h | h
  · simp [h, (by linarith : ¬ a - r = 0), (by linarith : 0 < a - r),
      (by linarith : ¬ a < r)]
  · simp [(by linarith : a - r = 0), (by linarith : ¬ r < a),
      (by linarith : ¬ a < r)]
  · simp [h, (by linarith : ¬ a - r = 0), (by linarith : ¬ 0 < a - r),
      (by linarith : ¬ r < a)]

/-- C7: on a daily-returns series with no negative entries the Sortino
computation RAISES instead of returning not-a-number: the filtered
negative-returns series is empty, polars returns `None` for its standard
deviation, and `None * np.sqrt(252)` is a TypeError - the `nan` fallback
on the next line is never reached. -/
theorem sortino_no_negative_returns_raises (daily_returns : List ℚ)
    (annualized_return risk_free_rate : ℚ)
    (h : ∀ x ∈ daily_returns, 0 ≤ x) :
    calculate_sortino_ratio daily_returns annualized_return
        risk_free_rate =
      Except.error
        "TypeError: unsupported operand, NoneType * numpy.float64" := by
  have hf : daily_returns.filter (fun x => x < 0) = [] := by
    rw [List.filter_eq_nil_iff]
    intro a ha
    simp only [decide_eq_true_eq, not_lt]
    exact h a ha
  unfold calculate_sortino_ratio
  rw [hf]
  rfl

/-- C7 witness: the flat series with daily returns `[0, 0]` (no negative
returns) makes the Sortino computation raise. -/
theorem sortino_no_negative_returns_raises_witness :
    calculate_sortino_ratio [0, 0] 1 0 =
      Except.error
        "TypeError: unsupported operand, NoneType * numpy.float64" :=
  sortino_no_negative_returns_raises [0, 0] 1 0 (by norm_num)

/-- C8: Scenario A. On the 3-bar series with opens 10, 50, 60, a
strategy placing a market buy of 10 shares on bar 1 with starting cash
1000 gets its order filled on bar 2 at price 50, after which cash is 500
and the position size is 10; nothing else happens for the rest of the
run. -/
theorem scenario_a_market_buy_fill :
    Engine.run (some scenarioAStrategy) (some scenarioABars) 1000 =
      Except.ok
        ({ cash := 500, trades := [scenarioATrade], orders := [] },
          [[], [], []]) ∧
    positionSize [scenarioATrade] = 10 ∧ scenarioATrade.price = 50 ∧
    scenarioATrade.idx = 2 := by
  refine ⟨?_, by norm_num [positionSize, scenarioATrade], rfl, rfl⟩
  norm_num [Engine.run, runBarsT, initState, fillOrders, fillOrdersAux,
    fillOrder, applyFill, positionSize, scenarioAStrategy, scenarioABars,
    scenarioATrade, Strategy.buy]

/-- C9: calling `run` with no strategy attached, or with no data
attached, returns the corresponding error before any bar is processed
(for the no-strategy case the error does not depend on the data at all,
and in the no-data case there are no bars to process). -/
theorem run_requires_strategy_and_data (initial_cash : ℚ) :
    (∀ d, Engine.run none d initial_cash =
      Except.error "No strategy has been added to the engine.") ∧
    (∀ st, Engine.run (some st) none initial_cash =
      Except.error "No data has been added to the engine.") :=
  ⟨fun _ => rfl, fun _ => rfl⟩

/-- C10: fills are whole, never partial: an order processed without error
either leaves trades and cash untouched, or appends EXACTLY ONE Trade
carrying the order's ticker, side, signed size and kind unchanged, its
bar index set to the current bar and its price the resolved fill price
(the limit price for LIMIT orders, the bar open otherwise), with cash
updated by that same price and size. -/
theorem fills_are_whole (bar : Bar) (s s' : EngineState) (o : Order)
    (h : fillOrder bar s o = Except.ok s') :
    (s'.trades = s.trades ∧ s'.cash = s.cash) ∨
    (∃ price, s'.trades = s.trades ++
        [{ ticker := o.ticker, side := o.side, size := o.size,
           type := o.type, price := price, idx := bar.date }] ∧
      s'.cash = s.cash - price * o.size ∧
      ((o.type = OrderType.limit ∧ o.limit_price = some price) ∨
       (o.type ≠ OrderType.limit ∧ price = bar.open_))) := by
  rcases fillOrder_ok_cases bar s o s' h with rfl | ⟨price, rfl, hp⟩
  · exact Or.inl ⟨rfl, rfl⟩
  · exact Or.inr ⟨price, rfl, rfl, hp⟩

/-- C10 witness: the whole-fill law applied to a concrete market buy of
2 shares filling at open 4 from cash 9. -/
theorem fills_are_whole_witness :
    (c10Result.trades = c10State.trades ∧
      c10Result.cash = c10State.cash) ∨
    (∃ price, c10Result.trades = c10State.trades ++
        [{ ticker := c10Order.ticker, side := c10Order.side,
           size := c10Order.size, type := c10Order.type, price := price,
           idx := c10Bar.date }] ∧
      c10Result.cash = c10State.cash - price * c10Order.size ∧
      ((c10Order.type = OrderType.limit ∧
          c10Order.limit_price = some price) ∨
       (c10Order.type ≠ OrderType.limit ∧ price = c10Bar.open_))) :=
  fills_are_whole c10Bar c10State c10Result c10Order
    (by norm_num [fillOrder, applyFill, positionSize, c10Bar, c10State,
      c10Order, c10Result, Strategy.buy])
